import Mathlib

/-!
Shallow embedding of the ScreenRecorderBackend HTTP API
(`src/server.js`, two concatenated deployment variants, and
`src/unnamed/part_000`, a callback-based variant).

The repository is an Express application: three upload handlers
(`POST /upload` promise-based, `POST /api/recordings`, and a legacy
callback-based `POST /upload`), a list handler (`GET /api/recordings`),
a fetch-one handler (`GET /api/recordings/:id`), and a CORS layer with
an allow-list of origins.  External collaborators (Cloudinary blob
store, Postgres) are modelled by explicit outcome parameters and a
pure table state; handlers return the HTTP outcome, the new table
state, and the trace of store-layer events they performed.
-/

namespace ScreenRecorder

/-- A row of the `recordings` table, schema from the
`CREATE TABLE IF NOT EXISTS recordings` statement in `src/server.js`:
`id SERIAL PRIMARY KEY, filename TEXT, url TEXT, filesize BIGINT,
createdAt TIMESTAMP DEFAULT CURRENT_TIMESTAMP`. -/
structure RecordingRow where
  id : Nat
  filename : String
  url : String
  filesize : Nat
  createdAt : Nat
deriving Repr, DecidableEq

/-- The `recordings` table together with the `SERIAL` sequence that
assigns the next `id` (Postgres assigns ids monotonically from a
sequence; rows are kept in insertion order). -/
structure DB where
  rows : List RecordingRow
  seq : Nat
deriving Repr, DecidableEq

/-- The multipart file produced by multer's `memoryStorage` on
`upload.single(...)`: the original client file name and the raw bytes
buffered in memory (`req.file.originalname`, `req.file.buffer`). -/
structure UploadedFile where
  originalname : String
  buffer : List Nat
deriving Repr, DecidableEq

/-- multer's `req.file.size` for memory storage: the accumulated byte
length of the buffered payload. -/
def UploadedFile.size (f : UploadedFile) : Nat := f.buffer.length

/-- JSON bodies the handlers produce via `res.json(...)`. -/
inductive Body
  /-- `res.json(\x7b url, filename \x7d)` of the `/upload` variants. -/
  | urlFilename (url filename : String)
  /-- an error payload `\x7b error: msg \x7d`. -/
  | err (msg : String)
  /-- `res.status(201).json(\x7b message, recording \x7d)`. -/
  | created (message : String) (recording : RecordingRow)
  /-- `res.json(\x7b url \x7d)` of the fetch-one handler. -/
  | urlOnly (url : String)
  /-- `res.json(result.rows)` of the list handler. -/
  | rows (rs : List RecordingRow)
deriving Repr, DecidableEq

/-- An HTTP response: status code and JSON body. -/
structure HttpResponse where
  status : Nat
  body : Body
deriving Repr, DecidableEq

/-- Outcome of one request: either a response was sent, or the handler
let a raw rejection escape without sending any response (possible in
the callback-based variant, where the async Cloudinary callback runs
outside the handler's try/catch). -/
inductive Outcome
  | resp (r : HttpResponse)
  | uncaught (e : String)
deriving Repr, DecidableEq

/-- Store-layer events a handler performs, in order. -/
inductive Event
  /-- a Cloudinary `upload_stream` write of the given bytes; `ok` tells
  whether the blob store reported success. -/
  | blobWrite (bytes : List Nat) (ok : Bool)
  /-- an `INSERT INTO recordings ...` attempt. -/
  | dbInsert (filename url : String) (filesize : Nat)
  /-- a `SELECT ... FROM recordings` query. -/
  | dbQuery
deriving Repr, DecidableEq

/-- The `INSERT INTO recordings (filename, url, filesize) VALUES ...`
statement: Postgres assigns `id` from the `SERIAL` sequence and
`createdAt` from the clock, appends the row, and (with `RETURNING *`)
hands the inserted row back. -/
def dbInsertRow (db : DB) (filename url : String) (filesize now : Nat) :
    DB × RecordingRow :=
  let row : RecordingRow := ⟨db.seq, filename, url, filesize, now⟩
  (⟨db.rows ++ [row], db.seq + 1⟩, row)

/-- The allow-list of `src/server.js` lines 17-22. -/
def allowedOrigins : List String :=
  [ "http://localhost:5173",
    "https://screen-recorder-frontend-six.vercel.app",
    "https://screen-recorder-frontend-ixl2xytsi-geethas-projects-594b30ca.vercel.app",
    "https://screen-recorder-frontend-n3stbe1wr-geethas-projects-594b30ca.vercel.app" ]

/-- The CORS origin callback of `src/server.js` lines 27-33:
`if (!origin || allowedOrigins.includes(origin)) accept else reject`.
A missing `Origin` header is `undefined` and the empty string is falsy,
so `!origin` accepts both. -/
def corsAccepts : Option String → Bool
  | none => true
  | some o => o = "" || allowedOrigins.contains o

/-- `POST /upload` of `src/server.js` (lines 77-111, promise-based):
reject 400 when no file; await the promise-wrapped Cloudinary
`upload_stream`; on success insert the timestamp-prefixed filename,
secure url and size, then `res.json(\x7b url, filename \x7d)`; any
rejection is caught and answered with 500 `Upload failed`.
`blob` is the blob store's outcome (`secure_url` on success),
`insertOk` whether the insert statement succeeds, `now` is
`Date.now()`. -/
def uploadHandler (now : Nat) (blob : Except String String) (insertOk : Bool)
    (db : DB) (file : Option UploadedFile) : Outcome × DB × List Event :=
  match file with
  | none => (.resp ⟨400, .err "No file uploaded"⟩, db, [])
  | some f =>
    match blob with
    | .error _ =>
        (.resp ⟨500, .err "Upload failed"⟩, db, [.blobWrite f.buffer false])
    | .ok secureUrl =>
        let filename := toString now ++ "-" ++ f.originalname
        if insertOk then
          let (db2, _) := dbInsertRow db filename secureUrl f.size now
          (.resp ⟨200, .urlFilename secureUrl filename⟩, db2,
            [.blobWrite f.buffer true, .dbInsert filename secureUrl f.size])
        else
          (.resp ⟨500, .err "Upload failed"⟩, db,
            [.blobWrite f.buffer true, .dbInsert filename secureUrl f.size])

/-- `POST /api/recordings` of `src/server.js` (lines 186-219): reject
400 when no file; await the Cloudinary upload; insert
`(originalname, secure_url, size)` with `RETURNING *`; answer
`res.status(201).json(\x7b message, recording \x7d)`; any rejection is
caught and answered with 500 `Upload failed`. -/
def apiUploadHandler (now : Nat) (blob : Except String String) (insertOk : Bool)
    (db : DB) (file : Option UploadedFile) : Outcome × DB × List Event :=
  match file with
  | none => (.resp ⟨400, .err "No file uploaded"⟩, db, [])
  | some f =>
    match blob with
    | .error _ =>
        (.resp ⟨500, .err "Upload failed"⟩, db, [.blobWrite f.buffer false])
    | .ok secureUrl =>
        if insertOk then
          let (db2, row) := dbInsertRow db f.originalname secureUrl f.size now
          (.resp ⟨201, .created "Recording uploaded successfully" row⟩, db2,
            [.blobWrite f.buffer true, .dbInsert f.originalname secureUrl f.size])
        else
          (.resp ⟨500, .err "Upload failed"⟩, db,
            [.blobWrite f.buffer true, .dbInsert f.originalname secureUrl f.size])

/-- `POST /upload` of `src/unnamed/part_000` (lines 65-98,
callback-based): reject 400 when no file; hand the buffer to
`upload_stream` whose async callback answers 500
`Upload to Cloudinary failed` on blob error, otherwise inserts and
answers `res.json(\x7b url, filename \x7d)`.  The callback is an async
function that runs after the handler's try/catch has already returned,
so a rejected insert inside it is an unhandled rejection: no response
is sent and the raw error escapes. -/
def legacyUploadHandler (now : Nat) (blob : Except String String) (insertOk : Bool)
    (db : DB) (file : Option UploadedFile) : Outcome × DB × List Event :=
  match file with
  | none => (.resp ⟨400, .err "No file uploaded"⟩, db, [])
  | some f =>
    match blob with
    | .error _ =>
        (.resp ⟨500, .err "Upload to Cloudinary failed"⟩, db,
          [.blobWrite f.buffer false])
    | .ok secureUrl =>
        let filename := toString now ++ "-" ++ f.originalname
        if insertOk then
          let (db2, _) := dbInsertRow db filename secureUrl f.size now
          (.resp ⟨200, .urlFilename secureUrl filename⟩, db2,
            [.blobWrite f.buffer true, .dbInsert filename secureUrl f.size])
        else
          (.uncaught "insert rejected inside upload_stream callback", db,
            [.blobWrite f.buffer true, .dbInsert filename secureUrl f.size])

/-- One step of insertion into a list already ordered by `id`
descending, placing `r` before the first row whose `id` it is at least
equal to; used to model `ORDER BY id DESC`. -/
def insertDesc (r : RecordingRow) : List RecordingRow → List RecordingRow
  | [] => [r]
  | x :: xs => if x.id ≤ r.id then r :: x :: xs else x :: insertDesc r xs

/-- The result set of `SELECT ... FROM recordings ORDER BY id DESC`:
the table's rows sorted by `id` descending. -/
def sortByIdDesc : List RecordingRow → List RecordingRow
  | [] => []
  | x :: xs => insertDesc x (sortByIdDesc xs)

/-- `GET /api/recordings` (`src/server.js` lines 114-124 and 222-232):
`SELECT id, filename, url, filesize, createdAt FROM recordings ORDER BY
id DESC`, answered as `res.json(result.rows)`; a query failure is
caught and answered with 500 `DB query failed`. -/
def listHandler (selectOk : Bool) (db : DB) : Outcome × DB × List Event :=
  if selectOk then
    (.resp ⟨200, .rows (sortByIdDesc db.rows)⟩, db, [.dbQuery])
  else
    (.resp ⟨500, .err "DB query failed"⟩, db, [.dbQuery])

/-- The numeric value of a decimal digit character, `none` otherwise. -/
def charDigit (c : Char) : Option Nat :=
  if c.isDigit then some (c.toNat - 48) else none

/-- Accumulating decimal parse of a digit list. -/
def parseNatAux : List Char → Nat → Option Nat
  | [], acc => some acc
  | c :: cs, acc =>
    match charDigit c with
    | none => none
    | some d => parseNatAux cs (acc * 10 + d)

/-- Decimal parse of a nonempty digit list. -/
def parseNatChars : List Char → Option Nat
  | [] => none
  | cs => parseNatAux cs 0

/-- The whitespace characters Postgres's integer input function skips
around a numeral (C `isspace`): space, tab, newline, vertical tab,
form feed, carriage return. -/
def pgSpace (c : Char) : Bool :=
  c = ' ' || c = '\t' || c = '\n' || c = '\x0b' || c = '\x0c' || c = '\r'

/-- Drops leading Postgres whitespace. -/
def dropSpace : List Char → List Char
  | [] => []
  | c :: cs => if pgSpace c then dropSpace cs else c :: cs

/-- Splits an optional leading sign off a numeral; `true` means
negative. -/
def pgSign : List Char → Bool × List Char
  | '-' :: rest => (true, rest)
  | '+' :: rest => (false, rest)
  | rest => (false, rest)

/-- Splits the maximal leading digit run off a character list. -/
def takeDigits : List Char → List Char × List Char
  | [] => ([], [])
  | c :: cs =>
    if c.isDigit then
      let dr := takeDigits cs
      (c :: dr.1, dr.2)
    else ([], c :: cs)

/-- Postgres's `int4in` cast of the text parameter `$1` to the integer
column `id` in `WHERE id = $1`: optional surrounding whitespace, an
optional sign, decimal digits, and the value must fit the 32-bit
integer range `-2147483648 ≤ v ≤ 2147483647`; anything else raises
(`invalid input syntax for type integer`, or
`value out of range for type integer`), which the handler's catch
turns into a 500. -/
def pgIntParam (s : String) : Option Int :=
  let cs := dropSpace s.toList
  let sc := pgSign cs
  let dr := takeDigits sc.2
  if dr.1 = [] then none
  else if dropSpace dr.2 ≠ [] then none
  else
    match parseNatChars dr.1 with
    | none => none
    | some n =>
      let v : Int := if sc.1 then -(n : Int) else (n : Int)
      if v < -2147483648 ∨ 2147483647 < v then none else some v

/-- `GET /api/recordings/:id` (`src/server.js` lines 235-250):
`SELECT * FROM recordings WHERE id = $1` with the raw path segment as
parameter; no row gives 404 `Recording not found`; a found row is
answered as `res.json(\x7b url: row.url \x7d)` (the remote-store
variant returns the Cloudinary URL instead of streaming); any query
failure — including a path segment Postgres cannot cast to an integer —
is caught and answered with 500 `DB query failed`. -/
def getOneHandler (selectOk : Bool) (db : DB) (idParam : String) :
    Outcome × DB × List Event :=
  if selectOk then
    match pgIntParam idParam with
    | none => (.resp ⟨500, .err "DB query failed"⟩, db, [.dbQuery])
    | some n =>
      match db.rows.find? (fun r => (r.id : Int) = n) with
      | none => (.resp ⟨404, .err "Recording not found"⟩, db, [.dbQuery])
      | some row => (.resp ⟨200, .urlOnly row.url⟩, db, [.dbQuery])
  else
    (.resp ⟨500, .err "DB query failed"⟩, db, [.dbQuery])

/-- `true` when every `dbInsert` event in the trace is preceded by a
successful `blobWrite`; `seen` records whether a successful blob write
has occurred so far. -/
def insertsAfterBlob : List Event → Bool → Bool
  | [], _ => true
  | .blobWrite _ ok :: rest, seen => insertsAfterBlob rest (seen || ok)
  | .dbInsert _ _ _ :: rest, seen => seen && insertsAfterBlob rest seen
  | .dbQuery :: rest, seen => insertsAfterBlob rest seen

/-- Store-then-record ordering over a whole trace. -/
def storeThenRecord (tr : List Event) : Bool := insertsAfterBlob tr false

/-- Splits a character list at its first dash, `none` when there is no
dash. -/
def splitAtDash : List Char → Option (List Char × List Char)
  | [] => none
  | c :: cs =>
    if c = '-' then some ([], cs)
    else
      match splitAtDash cs with
      | none => none
      | some (a, b) => some (c :: a, b)

/-- Modelled from the spec: parsing of the request range specification
of §4.1, `bytes=<start>-<end>` where `<end>` may be omitted — the
local-store streaming code this belongs to is not among the source
files (the fetch-one handler in `src/server.js` is the remote-store
variant). Yields the start and the optional end. -/
def parseRangeHeader (h : String) : Option (Nat × Option Nat) :=
  match h.toList with
  | 'b' :: 'y' :: 't' :: 'e' :: 's' :: '=' :: rest =>
    match splitAtDash rest with
    | none => none
    | some (s, e) =>
      match parseNatChars s with
      | none => none
      | some start => some (start, parseNatChars e)
  | _ => none

/-- The response emitted by the Range Streamer: status, the
Content-Range and Accept-Ranges headers when present, Content-Length,
and the byte slice served. -/
structure RangeResponse where
  status : Nat
  contentRange : Option String
  acceptRanges : Option String
  contentLength : Nat
  body : List Nat
deriving Repr, DecidableEq

/-- Modelled from the spec: the Range Streamer of §4.1, absent from the
source files.  With no range: full-content status 200, Content-Length
equal to the file size, the entire byte stream.  With a parsed range:
`<end>` defaults to `fileSize - 1` when omitted,
`chunkSize = end - start + 1`, partial-content status 206 with
`Content-Range: bytes <start>-<end>/<fileSize>`,
`Accept-Ranges: bytes`, `Content-Length: chunkSize`, and exactly the
byte slice from `start` to `end` inclusive. -/
def rangeStream (file : List Nat) : Option (Nat × Option Nat) → RangeResponse
  | none => ⟨200, none, none, file.length, file⟩
  | some (start, endOpt) =>
    let fileSize := file.length
    let e := endOpt.getD (fileSize - 1)
    let chunkSize := e - start + 1
    ⟨206,
      some ("bytes " ++ toString start ++ "-" ++ toString e ++ "/" ++
        toString fileSize),
      some "bytes", chunkSize, (file.drop start).take chunkSize⟩

/-! Helper lemmas about the `ORDER BY id DESC` model. -/

theorem insertDesc_perm (r : RecordingRow) (l : List RecordingRow) :
    List.Perm (insertDesc r l) (r :: l) := by
  induction l with
  | nil => exact List.Perm.refl _
  | cons x xs ih =>
    simp only [insertDesc]
    by_cases h : x.id ≤ r.id
    · rw [if_pos h]
    · rw [if_neg h]
      exact (ih.cons x).trans (List.Perm.swap r x xs)

theorem sortByIdDesc_perm (l : List RecordingRow) :
    List.Perm (sortByIdDesc l) l := by
  induction l with
  | nil => exact List.Perm.refl _
  | cons x xs ih =>
    exact (insertDesc_perm x (sortByIdDesc xs)).trans (ih.cons x)

theorem insertDesc_pairwise (r : RecordingRow) (l : List RecordingRow)
    (h : l.Pairwise (fun a b => b.id ≤ a.id)) :
    (insertDesc r l).Pairwise (fun a b => b.id ≤ a.id) := by
  induction l with
  | nil => simp [insertDesc]
  | cons x xs ih =>
    rw [List.pairwise_cons] at h
    obtain ⟨hx, hxs⟩ := h
    simp only [insertDesc]
    by_cases hle : x.id ≤ r.id
    · rw [if_pos hle]
      refine List.pairwise_cons.mpr ⟨?_, List.pairwise_cons.mpr ⟨hx, hxs⟩⟩
      intro b hb
      rcases List.mem_cons.mp hb with rfl | hb'
      · exact hle
      · exact le_trans (hx b hb') hle
    · rw [if_neg hle]
      refine List.pairwise_cons.mpr ⟨?_, ih hxs⟩
      intro b hb
      have hb' := (insertDesc_perm r xs).mem_iff.mp hb
      rcases List.mem_cons.mp hb' with rfl | hb''
      · omega
      · exact hx b hb''

theorem sortByIdDesc_pairwise (l : List RecordingRow) :
    (sortByIdDesc l).Pairwise (fun a b => b.id ≤ a.id) := by
  induction l with
  | nil => exact List.Pairwise.nil
  | cons x xs ih => exact insertDesc_pairwise x _ ih

theorem sortByIdDesc_strict (l : List RecordingRow)
    (h : (l.map RecordingRow.id).Nodup) :
    ((sortByIdDesc l).map RecordingRow.id).Pairwise (fun a b => b < a) := by
  have hperm :
      List.Perm ((sortByIdDesc l).map RecordingRow.id)
        (l.map RecordingRow.id) := (sortByIdDesc_perm l).map _
  have hnd : ((sortByIdDesc l).map RecordingRow.id).Nodup :=
    hperm.nodup_iff.mpr h
  have hle :
      ((sortByIdDesc l).map RecordingRow.id).Pairwise (fun a b => b ≤ a) :=
    List.pairwise_map.mpr (sortByIdDesc_pairwise l)
  exact (hle.and hnd).imp fun hab => lt_of_le_of_ne hab.1 (Ne.symm hab.2)

theorem rangeStream_some_some (file : List Nat) (s e : Nat) :
    rangeStream file (some (s, some e)) =
      ⟨206,
        some ("bytes " ++ toString s ++ "-" ++ toString e ++ "/" ++
          toString file.length),
        some "bytes", e - s + 1, (file.drop s).take (e - s + 1)⟩ := rfl

/-! The claims. -/

/-- Claim C1: fetching a stored recording whose total size exceeds 100
bytes with request header Range of bytes 0 to 99 yields partial-content
status 206, a Content-Range header of bytes 0-99 over the total size, a
Content-Length of 100, and a body that is bit-for-bit the first 100
bytes of the originally uploaded payload (Range Streamer modelled from
the spec; the local-store streaming variant is absent from the source
files). -/
theorem range_request_first_100_bytes (file : List Nat)
    (h : 100 < file.length) :
    rangeStream file (parseRangeHeader "bytes=0-99") =
      ⟨206, some ("bytes 0-99/" ++ toString file.length), some "bytes",
        100, file.take 100⟩ ∧
    (file.take 100).length = 100 := by
  constructor
  · have hp : parseRangeHeader "bytes=0-99" = some (0, some 99) := by decide
    rw [hp, rangeStream_some_some]
    have hpre :
        (((("bytes " ++ toString (0 : Nat)) ++ "-") ++ toString (99 : Nat))
          ++ "/") = "bytes 0-99/" := by decide
    rw [hpre]
    norm_num [List.drop_zero]
  · rw [List.length_take]
    omega

/-- Witness for the range round-trip theorem at a concrete file of 101
identical bytes. -/
theorem range_request_first_100_bytes_witness :
    100 < (List.replicate 101 7).length ∧
    (rangeStream (List.replicate 101 7) (parseRangeHeader "bytes=0-99") =
      ⟨206, some ("bytes 0-99/" ++ toString (List.replicate 101 7).length),
        some "bytes", 100, (List.replicate 101 7).take 100⟩ ∧
     ((List.replicate 101 7).take 100).length = 100) :=
  ⟨by decide, range_request_first_100_bytes (List.replicate 101 7) (by decide)⟩

/-- Claim C2: an upload request carrying no file field is answered 400
with error No file uploaded by every upload handler variant, with the
recordings table unchanged and an empty store-event trace — no blob
write attempted, no row inserted. -/
theorem upload_without_file_rejected (now : Nat)
    (blob : Except String String) (insertOk : Bool) (db : DB) :
    uploadHandler now blob insertOk db none =
      (.resp ⟨400, .err "No file uploaded"⟩, db, []) ∧
    apiUploadHandler now blob insertOk db none =
      (.resp ⟨400, .err "No file uploaded"⟩, db, []) ∧
    legacyUploadHandler now blob insertOk db none =
      (.resp ⟨400, .err "No file uploaded"⟩, db, []) :=
  ⟨rfl, rfl, rfl⟩

/-- Claim C3: in every execution of every upload handler variant, each
insert into the recordings table happens only after a successful blob
write (store-then-record ordering of the event trace), and the table
can only change when the blob store reported success. -/
theorem metadata_insert_after_blob_store (now : Nat)
    (blob : Except String String) (insertOk : Bool) (db : DB)
    (file : Option UploadedFile) :
    (storeThenRecord (uploadHandler now blob insertOk db file).2.2 = true ∧
     storeThenRecord (apiUploadHandler now blob insertOk db file).2.2 = true ∧
     storeThenRecord
       (legacyUploadHandler now blob insertOk db file).2.2 = true) ∧
    ((uploadHandler now blob insertOk db file).2.1 = db ∨
      ∃ u, blob = .ok u) ∧
    ((apiUploadHandler now blob insertOk db file).2.1 = db ∨
      ∃ u, blob = .ok u) ∧
    ((legacyUploadHandler now blob insertOk db file).2.1 = db ∨
      ∃ u, blob = .ok u) := by
  rcases file with _ | f <;> rcases blob with e | u <;> cases insertOk <;>
    simp [uploadHandler, apiUploadHandler, legacyUploadHandler,
      storeThenRecord, insertsAfterBlob, dbInsertRow]

/-- Claim C4: the list endpoint answers 200 with every row of the table
(its result is a permutation of the table — no pagination, no
filtering), the ids strictly decreasing in list order (newest first),
and leaves the table unchanged; the id-uniqueness hypothesis is the
SERIAL PRIMARY KEY invariant of the schema. -/
theorem list_returns_all_rows_newest_first (db : DB)
    (h : (db.rows.map RecordingRow.id).Nodup) :
    (listHandler true db).1 = .resp ⟨200, .rows (sortByIdDesc db.rows)⟩ ∧
    List.Perm (sortByIdDesc db.rows) db.rows ∧
    ((sortByIdDesc db.rows).map RecordingRow.id).Pairwise
      (fun a b => b < a) ∧
    (listHandler true db).2.1 = db :=
  ⟨rfl, sortByIdDesc_perm db.rows, sortByIdDesc_strict db.rows h, rfl⟩

/-- Witness for the list theorem at a concrete two-row table. -/
theorem list_returns_all_rows_newest_first_witness :
    (((DB.mk [⟨1, "a", "u1", 3, 0⟩, ⟨2, "b", "u2", 4, 0⟩] 3).rows.map
        RecordingRow.id).Nodup) ∧
    ((listHandler true ⟨[⟨1, "a", "u1", 3, 0⟩, ⟨2, "b", "u2", 4, 0⟩], 3⟩).1 =
        .resp ⟨200, .rows (sortByIdDesc
          [⟨1, "a", "u1", 3, 0⟩, ⟨2, "b", "u2", 4, 0⟩])⟩ ∧
      List.Perm (sortByIdDesc [⟨1, "a", "u1", 3, 0⟩, ⟨2, "b", "u2", 4, 0⟩])
        [⟨1, "a", "u1", 3, 0⟩, ⟨2, "b", "u2", 4, 0⟩] ∧
      ((sortByIdDesc [⟨1, "a", "u1", 3, 0⟩, ⟨2, "b", "u2", 4, 0⟩]).map
        RecordingRow.id).Pairwise (fun a b => b < a) ∧
      (listHandler true
        ⟨[⟨1, "a", "u1", 3, 0⟩, ⟨2, "b", "u2", 4, 0⟩], 3⟩).2.1 =
        ⟨[⟨1, "a", "u1", 3, 0⟩, ⟨2, "b", "u2", 4, 0⟩], 3⟩) :=
  ⟨by decide, list_returns_all_rows_newest_first
    ⟨[⟨1, "a", "u1", 3, 0⟩, ⟨2, "b", "u2", 4, 0⟩], 3⟩ (by decide)⟩

/-- Claim C5: fetching an id that matches no row of the table yields
404 with error Recording not found, leaves the table unchanged, and the
trace holds only the select — no write to any store. -/
theorem fetch_unknown_id_not_found (db : DB) (idParam : String) (n : Int)
    (hp : pgIntParam idParam = some n)
    (h : ∀ r ∈ db.rows, (r.id : Int) ≠ n) :
    getOneHandler true db idParam =
      (.resp ⟨404, .err "Recording not found"⟩, db, [.dbQuery]) := by
  have hfind : db.rows.find? (fun r => (r.id : Int) = n) = none := by
    rw [List.find?_eq_none]
    intro r hr
    simpa using h r hr
  simp [getOneHandler, hp, hfind]

/-- Witness for the unknown-id theorem at a one-row table and id 2. -/
theorem fetch_unknown_id_not_found_witness :
    pgIntParam "2" = some 2 ∧
    (∀ r ∈ (DB.mk [⟨1, "a", "u1", 3, 0⟩] 2).rows, (r.id : Int) ≠ 2) ∧
    getOneHandler true ⟨[⟨1, "a", "u1", 3, 0⟩], 2⟩ "2" =
      (.resp ⟨404, .err "Recording not found"⟩,
        ⟨[⟨1, "a", "u1", 3, 0⟩], 2⟩, [.dbQuery]) :=
  ⟨by decide, by decide,
    fetch_unknown_id_not_found ⟨[⟨1, "a", "u1", 3, 0⟩], 2⟩ "2" 2
      (by decide) (by decide)⟩

/-- Claim C6 counterexample: the /upload deployment variant, on a fully
successful single-file upload, answers status 200 with a url-filename
body — not 201 Created with a message-recording body as the claim
states for both variants. -/
theorem upload_variant_responds_200_counterexample :
    (uploadHandler 0 (.ok "u") true ⟨[], 1⟩
        (some ⟨"a.webm", [1, 2, 3]⟩)).1 =
      .resp ⟨200, .urlFilename "u" "0-a.webm"⟩ ∧
    ¬ ∃ (msg : String) (rec : RecordingRow),
        (uploadHandler 0 (.ok "u") true ⟨[], 1⟩
            (some ⟨"a.webm", [1, 2, 3]⟩)).1 =
          .resp ⟨201, .created msg rec⟩ := by
  refine ⟨by decide, ?_⟩
  rintro ⟨msg, rec, hcontra⟩
  have h200 : (uploadHandler 0 (.ok "u") true ⟨[], 1⟩
      (some ⟨"a.webm", [1, 2, 3]⟩)).1 =
      .resp ⟨200, .urlFilename "u" "0-a.webm"⟩ := by decide
  rw [h200] at hcontra
  simp at hcontra

/-- Claim C6 amended: on a fully successful single-file upload the
/api/recordings handler answers 201 Created with the message and the
created row (its id, filename, url and filesize), while the /upload
variant answers 200 with the url and the timestamp-prefixed
filename. -/
theorem upload_success_response_shapes (now : Nat) (u : String) (db : DB)
    (f : UploadedFile) :
    apiUploadHandler now (.ok u) true db (some f) =
      (.resp ⟨201, .created "Recording uploaded successfully"
          ⟨db.seq, f.originalname, u, f.buffer.length, now⟩⟩,
        ⟨db.rows ++ [⟨db.seq, f.originalname, u, f.buffer.length, now⟩],
          db.seq + 1⟩,
        [.blobWrite f.buffer true,
          .dbInsert f.originalname u f.buffer.length]) ∧
    uploadHandler now (.ok u) true db (some f) =
      (.resp ⟨200, .urlFilename u (toString now ++ "-" ++ f.originalname)⟩,
        ⟨db.rows ++ [⟨db.seq, toString now ++ "-" ++ f.originalname, u,
            f.buffer.length, now⟩], db.seq + 1⟩,
        [.blobWrite f.buffer true,
          .dbInsert (toString now ++ "-" ++ f.originalname) u
            f.buffer.length]) :=
  ⟨rfl, rfl⟩

/-- Claim C7: for a valid upload of a payload of byte length N, both
upload variants of `src/server.js` record filesize N in the inserted
row, and the /api/recordings response carries a recording whose
filesize is N. -/
theorem recorded_filesize_is_payload_length (now : Nat) (u : String)
    (db : DB) (f : UploadedFile) :
    ((apiUploadHandler now (.ok u) true db (some f)).2.1.rows.map
        RecordingRow.filesize =
      db.rows.map RecordingRow.filesize ++ [f.buffer.length]) ∧
    ((uploadHandler now (.ok u) true db (some f)).2.1.rows.map
        RecordingRow.filesize =
      db.rows.map RecordingRow.filesize ++ [f.buffer.length]) ∧
    (apiUploadHandler now (.ok u) true db (some f)).1 =
      .resp ⟨201, .created "Recording uploaded successfully"
        ⟨db.seq, f.originalname, u, f.buffer.length, now⟩⟩ := by
  refine ⟨?_, ?_, rfl⟩ <;>
    simp [apiUploadHandler, uploadHandler, dbInsertRow, UploadedFile.size]

/-- Claim C8 counterexample: a request carrying no Origin header is
accepted by the CORS origin callback even though no allow-list entry
matches it, refuting accept-iff-Origin-in-allow-list. -/
theorem cors_accepts_absent_origin :
    corsAccepts none = true ∧
    ¬ ∃ s ∈ allowedOrigins, (none : Option String) = some s := by
  refine ⟨rfl, ?_⟩
  rintro ⟨s, _, h⟩
  exact Option.noConfusion h

/-- Claim C8 amended: the CORS origin callback accepts a request iff
its Origin header is absent, empty, or one of the allow-list entries;
every request with a nonempty Origin outside the allow-list is
rejected. -/
theorem cors_accept_iff (o : Option String) :
    corsAccepts o = true ↔
      o = none ∨ o = some "" ∨ ∃ s ∈ allowedOrigins, o = some s := by
  cases o with
  | none => simp [corsAccepts]
  | some s =>
    simp only [corsAccepts, Bool.or_eq_true, decide_eq_true_eq,
      List.contains_iff_exists_mem_beq, Option.some.injEq,
      reduceCtorEq, false_or, beq_iff_eq]

/-- Claim C9 counterexample: in the callback-based /upload variant of
`src/unnamed/part_000`, a metadata-insert failure after a successful
blob write produces no response at all — the rejection escapes the
handler's try/catch uncaught — instead of the 5xx error payload the
claim promises for every store failure. -/
theorem legacy_insert_failure_uncaught :
    (legacyUploadHandler 0 (.ok "u") false ⟨[], 1⟩
        (some ⟨"a.webm", [1, 2, 3]⟩)).1 =
      .uncaught "insert rejected inside upload_stream callback" ∧
    ¬ ∃ r : HttpResponse,
        (legacyUploadHandler 0 (.ok "u") false ⟨[], 1⟩
            (some ⟨"a.webm", [1, 2, 3]⟩)).1 = .resp r := by
  refine ⟨rfl, ?_⟩
  rintro ⟨r, hcontra⟩
  have hun : (legacyUploadHandler 0 (.ok "u") false ⟨[], 1⟩
      (some ⟨"a.webm", [1, 2, 3]⟩)).1 =
      .uncaught "insert rejected inside upload_stream callback" := rfl
  rw [hun] at hcontra
  exact Outcome.noConfusion hcontra

/-- Claim C9 amended: in the promise-based handlers of `src/server.js`
every store-layer failure — blob write, metadata insert, metadata
query, including a non-castable id parameter — is caught and answered
500 with an error payload; in the callback-based /upload variant a
blob-write failure is answered 500, but a metadata-insert failure
inside the blob store's callback escapes uncaught with no response. -/
theorem store_failures_caught_at_handler_boundary (now : Nat) (e : String)
    (insertOk : Bool) (db : DB) (f : UploadedFile) (u : String)
    (idParam : String) :
    (uploadHandler now (.error e) insertOk db (some f)).1 =
      .resp ⟨500, .err "Upload failed"⟩ ∧
    (uploadHandler now (.ok u) false db (some f)).1 =
      .resp ⟨500, .err "Upload failed"⟩ ∧
    (apiUploadHandler now (.error e) insertOk db (some f)).1 =
      .resp ⟨500, .err "Upload failed"⟩ ∧
    (apiUploadHandler now (.ok u) false db (some f)).1 =
      .resp ⟨500, .err "Upload failed"⟩ ∧
    (listHandler false db).1 = .resp ⟨500, .err "DB query failed"⟩ ∧
    (getOneHandler false db idParam).1 =
      .resp ⟨500, .err "DB query failed"⟩ ∧
    (legacyUploadHandler now (.error e) insertOk db (some f)).1 =
      .resp ⟨500, .err "Upload to Cloudinary failed"⟩ ∧
    (legacyUploadHandler now (.ok u) false db (some f)).1 =
      .uncaught "insert rejected inside upload_stream callback" :=
  ⟨rfl, rfl, rfl, rfl, rfl, rfl, rfl, rfl⟩

/-- Claim C10: when the :id path segment cannot be cast to an integer,
the parameterized query of the fetch-one handler fails and its catch
answers 500 with error DB query failed — not a 404 not-found
response. -/
theorem non_integer_id_yields_500 (db : DB) (idParam : String)
    (h : pgIntParam idParam = none) :
    (getOneHandler true db idParam).1 =
      .resp ⟨500, .err "DB query failed"⟩ ∧
    (getOneHandler true db idParam).1 ≠
      .resp ⟨404, .err "Recording not found"⟩ := by
  constructor <;> simp [getOneHandler, h]

/-- Witness for the non-integer-id theorem at the path segment abc. -/
theorem non_integer_id_yields_500_witness :
    pgIntParam "abc" = none ∧
    ((getOneHandler true ⟨[], 1⟩ "abc").1 =
        .resp ⟨500, .err "DB query failed"⟩ ∧
      (getOneHandler true ⟨[], 1⟩ "abc").1 ≠
        .resp ⟨404, .err "Recording not found"⟩) :=
  ⟨by decide, non_integer_id_yields_500 ⟨[], 1⟩ "abc" (by decide)⟩

end ScreenRecorder
